import Mathlib

/-!
Verification development for the polymarket-rosetta repository.

The repository has two Python source files:
* `lambda_function.py` — an AWS Lambda proxy (`lambda_handler`) that forwards a
  `path` query parameter to an upstream API and relays the outcome;
* `polymarket_lookup.py` — a CLI tool with fetch operations
  (`fetch_event_by_slug`, `fetch_event_by_id`, `fetch_market_by_slug`,
  `fetch_market_by_id`, `fetch_market_by_token_id`,
  `fetch_market_by_question_id`, `fetch_market_by_condition_id`),
  two formatters (`display_event_info`, `display_market_info`) and one CLI
  command per identifier kind.

The embedding below represents Python/JSON values by the inductive type
`Json`, Python exceptions by `PyErr` (so fallible Python code becomes
`Except PyErr _`), the upstream HTTP world by explicit outcome parameters,
and console output by lists of echoed strings (one list element per
`click.echo` call; a string may contain embedded newline characters exactly
where the Python string did).

Modelling notes, fixed once here:
* JSON numbers are carried as their source lexeme (`Json.num lexeme`); the
  display of floating-point values is therefore the lexeme, not Python's
  float normalisation.  No claim in this development depends on numeric
  rendering.
* Output printed before an uncaught exception is discarded by the `Except`
  model; the claims only concern whether an exception escapes and what a
  successful run prints.
* Exception message texts are fixed short strings; only the exception's
  class (constructor of `PyErr`) is semantically meaningful, matching the
  `except` clauses of the source.
-/

/-- A JSON / Python value as produced by `json.loads` and the upstream API. -/
inductive Json where
  | null : Json
  | bool : Bool → Json
  | num : String → Json
  | str : String → Json
  | arr : List Json → Json
  | obj : List (String × Json) → Json

/-- Python exception classes relevant to the source code. -/
inductive PyErr where
  | jsonDecodeError : String → PyErr
  | typeError : String → PyErr
  | attributeError : String → PyErr
  | keyError : String → PyErr
  | indexError : String → PyErr
deriving DecidableEq

/-- The single-quote character, written via its code point. -/
def squoteChar : Char := Char.ofNat 39

/-- The single-quote character as a one-character string. -/
def squote : String := String.mk [squoteChar]

/-- Left brace character. -/
def lbraceChar : Char := Char.ofNat 123

/-- Right brace character. -/
def rbraceChar : Char := Char.ofNat 125

/-- Lower-case hexadecimal digit for a value below 16. -/
def hexDigit (n : Nat) : Char :=
  if n < 10 then Char.ofNat (48 + n) else Char.ofNat (87 + n)

/-- Two lower-case hex digits of a byte, as used by Python `\xNN` escapes. -/
def hex2 (n : Nat) : List Char := [hexDigit (n / 16 % 16), hexDigit (n % 16)]

/-- Quote character Python `repr` picks for a string: single quote unless the
string contains a single quote and no double quote. -/
def pyQuoteChar (s : String) : Char :=
  if s.data.contains squoteChar && !(s.data.contains '"') then '"' else squoteChar

/-- Escape of one character inside a Python string `repr` with quote `q`. -/
def pyEscChar (q : Char) (c : Char) : List Char :=
  if c = '\\' then ['\\', '\\']
  else if c = q then ['\\', q]
  else if c = '\n' then ['\\', 'n']
  else if c = '\r' then ['\\', 'r']
  else if c = '\t' then ['\\', 't']
  else if c.toNat < 32 || c.toNat = 127 then '\\' :: 'x' :: hex2 c.toNat
  else [c]

/-- Python `repr` of a string (printable non-ASCII characters are kept as-is). -/
def pyReprString (s : String) : String :=
  let q := pyQuoteChar s
  String.mk (q :: (s.data.flatMap (pyEscChar q) ++ [q]))

mutual

/-- Python `repr` of a value decoded from JSON. -/
def pyRepr : Json → String
  | Json.null => "None"
  | Json.bool true => "True"
  | Json.bool false => "False"
  | Json.num lex => lex
  | Json.str s => pyReprString s
  | Json.arr xs => "[" ++ pyReprList xs ++ "]"
  | Json.obj fs => String.mk [lbraceChar] ++ pyReprFields fs ++ String.mk [rbraceChar]

/-- Comma-joined reprs of list elements. -/
def pyReprList : List Json → String
  | [] => ""
  | [x] => pyRepr x
  | x :: xs => pyRepr x ++ ", " ++ pyReprList xs

/-- Comma-joined reprs of dict entries. -/
def pyReprFields : List (String × Json) → String
  | [] => ""
  | [(k, v)] => pyReprString k ++ ": " ++ pyRepr v
  | (k, v) :: fs => pyReprString k ++ ": " ++ pyRepr v ++ ", " ++ pyReprFields fs

end

/-- Python `str` of a value (as interpolated by an f-string): identical to
`repr` except on strings, which are shown without quotes. -/
def pyStr : Json → String
  | Json.str s => s
  | v => pyRepr v

/-- Is a JSON number lexeme numerically zero (mantissa digits all `0`)? -/
def numLexIsZero (s : String) : Bool :=
  let mant := s.data.takeWhile (fun c => c ≠ 'e' && c ≠ 'E')
  let digits := mant.filter Char.isDigit
  !digits.isEmpty && digits.all (· = '0')

/-- Python truthiness of a value decoded from JSON. -/
def pyTruthy : Json → Bool
  | Json.null => false
  | Json.bool b => b
  | Json.num lex => !numLexIsZero lex
  | Json.str s => !s.isEmpty
  | Json.arr xs => !xs.isEmpty
  | Json.obj fs => !fs.isEmpty

/-- Python `len`: defined for lists, strings and dicts, `TypeError` otherwise. -/
def pyLen : Json → Except PyErr Nat
  | Json.arr xs => Except.ok xs.length
  | Json.str s => Except.ok s.length
  | Json.obj fs => Except.ok fs.length
  | _ => Except.error (PyErr.typeError "object has no len")

/-- Python subscript `v[i]` for a natural index: list element, one-character
string, `KeyError` on dicts (integer keys are absent after `json.loads`),
`TypeError` on non-subscriptable values. -/
def pyIndex : Json → Nat → Except PyErr Json
  | Json.arr xs, i =>
      match xs.get? i with
      | some v => Except.ok v
      | none => Except.error (PyErr.indexError "list index out of range")
  | Json.str s, i =>
      match s.data.get? i with
      | some c => Except.ok (Json.str (String.mk [c]))
      | none => Except.error (PyErr.indexError "string index out of range")
  | Json.obj _, _ => Except.error (PyErr.keyError "key")
  | _, _ => Except.error (PyErr.typeError "object is not subscriptable")

/-- Python `==` between a CLI identifier string and a decoded JSON value:
true exactly on equal strings (a string never equals a number, bool, …). -/
def pyEqStr (idv : String) : Json → Bool
  | Json.str s => idv = s
  | _ => false

/-- Assoc-list field access backing `dict.get(key, default)`. -/
def mget (fs : List (String × Json)) (k : String) (d : Json) : Json :=
  match fs.lookup k with
  | some v => v
  | none => d

/-- Python `dict.get(key, default)`: `AttributeError` when the receiver is not
a dict. -/
def dictGet : Json → String → Json → Except PyErr Json
  | Json.obj fs, k, d => Except.ok (mget fs k d)
  | _, _, _ => Except.error (PyErr.attributeError "object has no attribute get")

/-- Python iteration over a value: list elements, characters of a string,
keys of a dict; `TypeError` otherwise. -/
def pyIter : Json → Except PyErr (List Json)
  | Json.arr xs => Except.ok xs
  | Json.str s => Except.ok (s.data.map (fun c => Json.str (String.mk [c])))
  | Json.obj fs => Except.ok (fs.map (fun kv => Json.str kv.1))
  | _ => Except.error (PyErr.typeError "object is not iterable")

/-- Is a character JSON whitespace? -/
def isJsonWs (c : Char) : Bool := c = ' ' || c = '\t' || c = '\n' || c = '\r'

/-- Drop leading JSON whitespace. -/
def skipWs : List Char → List Char
  | [] => []
  | c :: cs => if isJsonWs c then skipWs cs else c :: cs

/-- Value of a hexadecimal digit character. -/
def hexVal : Char → Option Nat := fun c =>
  if '0' ≤ c && c ≤ '9' then some (c.toNat - 48)
  else if 'a' ≤ c && c ≤ 'f' then some (c.toNat - 87)
  else if 'A' ≤ c && c ≤ 'F' then some (c.toNat - 55)
  else none

/-- Read four hex digits. -/
def parseHex4 : List Char → Option (Nat × List Char)
  | a :: b :: c :: d :: rest =>
      match hexVal a, hexVal b, hexVal c, hexVal d with
      | some va, some vb, some vc, some vd =>
          some (((va * 16 + vb) * 16 + vc) * 16 + vd, rest)
      | _, _, _, _ => none
  | _ => none

/-- Body of a JSON string after the opening quote, with `\uXXXX` surrogate
pairs combined into one character.  (A lone surrogate is rejected; Python
would keep it, but Lean characters are Unicode scalar values.  No claim
depends on lone surrogates.) -/
def parseStringBody : Nat → List Char → List Char → Option (String × List Char)
  | 0, _, _ => none
  | _ + 1, [], _ => none
  | f + 1, c :: rest, acc =>
      if c = '"' then some (String.mk acc.reverse, rest)
      else if c = '\\' then
        match rest with
        | [] => none
        | e :: rest2 =>
          if e = '"' then parseStringBody f rest2 ('"' :: acc)
          else if e = '\\' then parseStringBody f rest2 ('\\' :: acc)
          else if e = '/' then parseStringBody f rest2 ('/' :: acc)
          else if e = 'b' then parseStringBody f rest2 (Char.ofNat 8 :: acc)
          else if e = 'f' then parseStringBody f rest2 (Char.ofNat 12 :: acc)
          else if e = 'n' then parseStringBody f rest2 ('\n' :: acc)
          else if e = 'r' then parseStringBody f rest2 ('\r' :: acc)
          else if e = 't' then parseStringBody f rest2 ('\t' :: acc)
          else if e = 'u' then
            match parseHex4 rest2 with
            | none => none
            | some (n, rest3) =>
              if 0xD800 ≤ n && n ≤ 0xDBFF then
                match rest3 with
                | '\\' :: 'u' :: rest4 =>
                  match parseHex4 rest4 with
                  | none => none
                  | some (m, rest5) =>
                    if 0xDC00 ≤ m && m ≤ 0xDFFF then
                      parseStringBody f rest5
                        (Char.ofNat (0x10000 + (n - 0xD800) * 0x400 + (m - 0xDC00)) :: acc)
                    else none
                | _ => none
              else if 0xDC00 ≤ n && n ≤ 0xDFFF then none
              else parseStringBody f rest3 (Char.ofNat n :: acc)
          else none
      else if c.toNat < 32 then none
      else parseStringBody f rest (c :: acc)

/-- Longest digit run at the front of the input. -/
def takeDigits : List Char → List Char × List Char
  | [] => ([], [])
  | c :: cs =>
      if c.isDigit then
        let (d, r) := takeDigits cs
        (c :: d, r)
      else ([], c :: cs)

/-- Integer part of a JSON number: `0` or a nonzero digit followed by digits. -/
def parseIntPart : List Char → Option (List Char × List Char)
  | [] => none
  | c :: rest =>
      if c = '0' then some (['0'], rest)
      else if c.isDigit then
        let (d, r) := takeDigits rest
        some (c :: d, r)
      else none

/-- Optional fractional part `.digits`. -/
def parseFracPart : List Char → Option (List Char × List Char)
  | '.' :: r =>
      let (d, rest) := takeDigits r
      if d.isEmpty then none else some ('.' :: d, rest)
  | cs => some ([], cs)

/-- Optional exponent part `e[+-]digits`. -/
def parseExpPart : List Char → Option (List Char × List Char)
  | [] => some ([], [])
  | c :: r =>
      if c = 'e' || c = 'E' then
        match r with
        | [] => none
        | s :: r2 =>
          if s = '+' || s = '-' then
            let (d, rest) := takeDigits r2
            if d.isEmpty then none else some (c :: s :: d, rest)
          else
            let (d, rest) := takeDigits r
            if d.isEmpty then none else some (c :: d, rest)
      else some ([], c :: r)

/-- A JSON number starting at the input (sign already inspected by caller). -/
def parseNumber (neg : Bool) (cs : List Char) : Option (Json × List Char) :=
  match parseIntPart cs with
  | none => none
  | some (ip, cs1) =>
    match parseFracPart cs1 with
    | none => none
    | some (fp, cs2) =>
      match parseExpPart cs2 with
      | none => none
      | some (ep, cs3) =>
        some (Json.num (String.mk ((if neg then ['-'] else []) ++ ip ++ fp ++ ep)), cs3)

/-- Consume an exact sequence of characters. -/
def expectLit : List Char → List Char → Option (List Char)
  | [], cs => some cs
  | _ :: _, [] => none
  | l :: ls, c :: cs => if c = l then expectLit ls cs else none

/-- Insert a parsed object field the way `dict` assignment does: a repeated
key keeps its first position but takes the later value. -/
def consField (k : String) (v : Json) (rest : List (String × Json)) :
    List (String × Json) :=
  match rest.lookup k with
  | some v2 => (k, v2) :: (rest.filter (fun kv => kv.1 ≠ k))
  | none => (k, v) :: rest

mutual

/-- One JSON value (fuel-indexed recursive descent, as `json.loads` parses). -/
def parseValue : Nat → List Char → Option (Json × List Char)
  | 0, _ => none
  | f + 1, cs =>
      match skipWs cs with
      | [] => none
      | c :: rest =>
        if c = '"' then
          match parseStringBody (rest.length + 1) rest [] with
          | some (s, r) => some (Json.str s, r)
          | none => none
        else if c = '[' then
          match skipWs rest with
          | ']' :: r => some (Json.arr [], r)
          | r => match parseArrayElems f r with
                 | some (xs, rr) => some (Json.arr xs, rr)
                 | none => none
        else if c = lbraceChar then
          match skipWs rest with
          | c2 :: r =>
              if c2 = rbraceChar then some (Json.obj [], r)
              else match parseObjFields f (c2 :: r) with
                   | some (fs, rr) => some (Json.obj fs, rr)
                   | none => none
          | [] => none
        else if c = 't' then
          (expectLit ['r', 'u', 'e'] rest).map (fun r => (Json.bool true, r))
        else if c = 'f' then
          (expectLit ['a', 'l', 's', 'e'] rest).map (fun r => (Json.bool false, r))
        else if c = 'n' then
          (expectLit ['u', 'l', 'l'] rest).map (fun r => (Json.null, r))
        else if c = 'N' then
          (expectLit ['a', 'N'] rest).map (fun r => (Json.num "nan", r))
        else if c = 'I' then
          (expectLit ['n', 'f', 'i', 'n', 'i', 't', 'y'] rest).map
            (fun r => (Json.num "inf", r))
        else if c = '-' then
          match rest with
          | 'I' :: r2 =>
              (expectLit ['n', 'f', 'i', 'n', 'i', 't', 'y'] r2).map
                (fun r => (Json.num "-inf", r))
          | r2 => parseNumber true r2
        else if c.isDigit then parseNumber false (c :: rest)
        else none

/-- Elements of a non-empty JSON array, including the closing bracket. -/
def parseArrayElems : Nat → List Char → Option (List Json × List Char)
  | 0, _ => none
  | f + 1, cs =>
      match parseValue f cs with
      | none => none
      | some (v, r) =>
        match skipWs r with
        | ',' :: r2 =>
            match parseArrayElems f r2 with
            | some (vs, r3) => some (v :: vs, r3)
            | none => none
        | ']' :: r2 => some ([v], r2)
        | _ => none

/-- Fields of a non-empty JSON object, including the closing brace. -/
def parseObjFields : Nat → List Char → Option (List (String × Json) × List Char)
  | 0, _ => none
  | f + 1, cs =>
      match skipWs cs with
      | '"' :: r =>
        match parseStringBody (r.length + 1) r [] with
        | none => none
        | some (k, r2) =>
          match skipWs r2 with
          | ':' :: r3 =>
            match parseValue f r3 with
            | none => none
            | some (v, r4) =>
              match skipWs r4 with
              | ',' :: r5 =>
                  match parseObjFields f r5 with
                  | some (fs, r6) => some (consField k v fs, r6)
                  | none => none
              | c :: r5 =>
                  if c = rbraceChar then some ([(k, v)], r5) else none
              | [] => none
          | _ => none
      | _ => none

end

/-- Model of Python `json.loads` on a string: parse one JSON value and
require only trailing whitespace after it; `none` models `JSONDecodeError`. -/
def jsonParse (s : String) : Option Json :=
  match parseValue (2 * s.length + 8) s.data with
  | some (v, rest) => if skipWs rest = [] then some v else none
  | none => none

/-- Python `json.loads` applied to an arbitrary value: a non-string receiver
raises `TypeError`; a failed parse of a string raises `JSONDecodeError`. -/
def json_loads : Json → Except PyErr Json
  | Json.str s =>
      match jsonParse s with
      | some v => Except.ok v
      | none => Except.error (PyErr.jsonDecodeError "Expecting value")
  | _ => Except.error (PyErr.typeError "the JSON object must be str, bytes or bytearray")

/-- The separator line `"=" * 70` used by every banner in the CLI. -/
def sep70 : String := String.mk (List.replicate 70 '=')

/-- Default-on-missing field access for the string-encoded list fields, whose
Python default is the string `'[]'` (for example
`market.get('clobTokenIds', '[]')`). -/
def listField (fs : List (String × Json)) (k : String) : Json :=
  mget fs k (Json.str "[]")

/-- Token-ID lines of `display_market_info` (`polymarket_lookup.py` 357-366):
parse `clobTokenIds`, label positions 0/1 as Yes/No when the parse yields at
least two elements, print the decoded value otherwise, and print the raw
string only when the parse raises `JSONDecodeError`. -/
def miTokenLines (v : Json) : Except PyErr (List String) :=
  match json_loads v with
  | Except.error (PyErr.jsonDecodeError _) => Except.ok ["└─ Token IDs: " ++ pyStr v]
  | Except.error e => Except.error e
  | Except.ok tids =>
    match pyLen tids with
    | Except.error e => Except.error e
    | Except.ok n =>
      if 2 ≤ n then
        match pyIndex tids 0 with
        | Except.error e => Except.error e
        | Except.ok t0 =>
          match pyIndex tids 1 with
          | Except.error e => Except.error e
          | Except.ok t1 =>
            Except.ok ["├─ Token ID (Yes): " ++ pyStr t0,
                       "└─ Token ID (No): " ++ pyStr t1]
      else Except.ok ["└─ Token IDs: " ++ pyStr tids]

/-- Token-ID lines of one market inside `display_event_info`
(`polymarket_lookup.py` 311-325); identical logic with indented prefixes. -/
def evTokenLines (v : Json) : Except PyErr (List String) :=
  match json_loads v with
  | Except.error (PyErr.jsonDecodeError _) => Except.ok ["   └─ Token IDs: " ++ pyStr v]
  | Except.error e => Except.error e
  | Except.ok tids =>
    match pyLen tids with
    | Except.error e => Except.error e
    | Except.ok n =>
      if 2 ≤ n then
        match pyIndex tids 0 with
        | Except.error e => Except.error e
        | Except.ok t0 =>
          match pyIndex tids 1 with
          | Except.error e => Except.error e
          | Except.ok t1 =>
            Except.ok ["   ├─ Token ID (Yes): " ++ pyStr t0,
                       "   └─ Token ID (No): " ++ pyStr t1]
      else Except.ok ["   └─ Token IDs: " ++ pyStr tids]

/-- Outcome/price lines of `display_market_info` (`polymarket_lookup.py`
386-399).  Both `json.loads` calls sit in one `try`; `len(prices)` is only
evaluated when `len(outcomes) >= 2` (Python `and` short-circuits). -/
def outcomesLines (ov pv : Json) : Except PyErr (List String) :=
  match json_loads ov with
  | Except.error (PyErr.jsonDecodeError _) =>
      Except.ok ["├─ Outcomes: " ++ pyStr ov, "└─ Prices: " ++ pyStr pv]
  | Except.error e => Except.error e
  | Except.ok outcomes =>
    match json_loads pv with
    | Except.error (PyErr.jsonDecodeError _) =>
        Except.ok ["├─ Outcomes: " ++ pyStr ov, "└─ Prices: " ++ pyStr pv]
    | Except.error e => Except.error e
    | Except.ok prices =>
      match pyLen outcomes with
      | Except.error e => Except.error e
      | Except.ok no =>
        if 2 ≤ no then
          match pyLen prices with
          | Except.error e => Except.error e
          | Except.ok np =>
            if 2 ≤ np then
              match pyIndex outcomes 0 with
              | Except.error e => Except.error e
              | Except.ok o0 =>
                match pyIndex prices 0 with
                | Except.error e => Except.error e
                | Except.ok p0 =>
                  match pyIndex outcomes 1 with
                  | Except.error e => Except.error e
                  | Except.ok o1 =>
                    match pyIndex prices 1 with
                    | Except.error e => Except.error e
                    | Except.ok p1 =>
                      Except.ok ["├─ " ++ pyStr o0 ++ " Price: " ++ pyStr p0,
                                 "└─ " ++ pyStr o1 ++ " Price: " ++ pyStr p1]
            else
              Except.ok ["├─ Outcomes: " ++ pyStr outcomes,
                         "└─ Prices: " ++ pyStr prices]
        else
          Except.ok ["├─ Outcomes: " ++ pyStr outcomes,
                     "└─ Prices: " ++ pyStr prices]

/-- Associated-event lines of `display_market_info` (`polymarket_lookup.py`
402-410): printed only when `market.get('events', [])` is truthy. -/
def assocEventLines (evs : Json) : Except PyErr (List String) :=
  if pyTruthy evs then
    match pyIndex evs 0 with
    | Except.error e => Except.error e
    | Except.ok e0 =>
      match e0 with
      | Json.obj efs =>
          Except.ok ["\n" ++ sep70, "ASSOCIATED EVENT", sep70,
            "├─ Event ID: " ++ pyStr (mget efs "id" (Json.str "N/A")),
            "├─ Event Slug: " ++ pyStr (mget efs "slug" (Json.str "N/A")),
            "└─ Event Title: " ++ pyStr (mget efs "title" (Json.str "N/A"))]
      | _ => Except.error (PyErr.attributeError "object has no attribute get")
  else Except.ok []

/-- Header lines of `display_market_info` up to the TOKEN IDS banner. -/
def miHeaderLines (fs : List (String × Json)) : List String :=
  ["\n" ++ sep70, "MARKET INFORMATION", sep70,
   "├─ Market ID: " ++ pyStr (mget fs "id" (Json.str "N/A")),
   "├─ Market Slug: " ++ pyStr (mget fs "slug" (Json.str "N/A")),
   "├─ Question: " ++ pyStr (mget fs "question" (Json.str "N/A")),
   "├─ Condition ID: " ++ pyStr (mget fs "conditionId" (Json.str "N/A")),
   "├─ Question ID: " ++ pyStr (mget fs "questionID" (Json.str "N/A")),
   "├─ NegRisk Market ID: " ++ pyStr (mget fs "negRiskMarketID" (Json.str "N/A")),
   "└─ Is NegRisk: " ++ pyStr (mget fs "negRisk" (Json.bool false)),
   "\n" ++ sep70, "TOKEN IDS", sep70]

/-- MARKET STATUS section lines of `display_market_info`. -/
def miStatusLines (fs : List (String × Json)) : List String :=
  ["\n" ++ sep70, "MARKET STATUS", sep70,
   "├─ Active: " ++ pyStr (mget fs "active" (Json.str "N/A")),
   "├─ Closed: " ++ pyStr (mget fs "closed" (Json.str "N/A")),
   "├─ Archived: " ++ pyStr (mget fs "archived" (Json.str "N/A")),
   "├─ Start Date: " ++ pyStr (mget fs "startDate" (Json.str "N/A")),
   "└─ End Date: " ++ pyStr (mget fs "endDate" (Json.str "N/A"))]

/-- MARKET METRICS header lines of `display_market_info` (volume/liquidity). -/
def miMetricsLines (fs : List (String × Json)) : List String :=
  ["\n" ++ sep70, "MARKET METRICS", sep70,
   "├─ Volume: $" ++ pyStr (mget fs "volume" (Json.str "N/A")),
   "├─ Liquidity: $" ++ pyStr (mget fs "liquidity" (Json.str "N/A"))]

/-- `display_market_info` (`polymarket_lookup.py` 331-410) as the list of
echoed strings, or the first uncaught Python exception. -/
def display_market_info : Json → Except PyErr (List String)
  | Json.obj fs =>
    match miTokenLines (listField fs "clobTokenIds") with
    | Except.error e => Except.error e
    | Except.ok tok =>
      match outcomesLines (listField fs "outcomes") (listField fs "outcomePrices") with
      | Except.error e => Except.error e
      | Except.ok outs =>
        match assocEventLines (mget fs "events" (Json.arr [])) with
        | Except.error e => Except.error e
        | Except.ok evl =>
          Except.ok (miHeaderLines fs ++ tok ++ miStatusLines fs
            ++ miMetricsLines fs ++ outs ++ evl)
  | _ => Except.error (PyErr.attributeError "object has no attribute get")

/-- Header lines of `display_event_info` (event-level fields). -/
def evHeaderLines (fs : List (String × Json)) : List String :=
  ["\n" ++ sep70, "EVENT INFORMATION", sep70,
   "├─ Event ID: " ++ pyStr (mget fs "id" (Json.str "N/A")),
   "├─ Event Slug: " ++ pyStr (mget fs "slug" (Json.str "N/A")),
   "├─ Event Title: " ++ pyStr (mget fs "title" (Json.str "N/A")),
   "├─ NegRisk Market ID: " ++ pyStr (mget fs "negRiskMarketID" (Json.str "N/A")),
   "└─ Is NegRisk: " ++ pyStr (mget fs "negRisk" (Json.bool false))]

/-- MARKETS IN THIS EVENT banner lines, given the active and total counts. -/
def evMarketsHeader (na nt : Nat) : List String :=
  ["\n" ++ sep70,
   "MARKETS IN THIS EVENT (" ++ toString na ++ " active, " ++ toString nt ++ " total)",
   sep70 ++ "\n"]

/-- The filter `[m for m in markets if m.get('active', False)]`
(`polymarket_lookup.py` 290), with Python truthiness of the flag. -/
def filterActive : List Json → Except PyErr (List Json)
  | [] => Except.ok []
  | m :: ms =>
    match dictGet m "active" (Json.bool false) with
    | Except.error e => Except.error e
    | Except.ok a =>
      match filterActive ms with
      | Except.error e => Except.error e
      | Except.ok rest => Except.ok (if pyTruthy a then m :: rest else rest)

/-- One market's block inside `display_event_info` (`polymarket_lookup.py`
298-328), with its 1-based ordinal. -/
def marketBlock (idx : Nat) : Json → Except PyErr (List String)
  | Json.obj fs =>
    match evTokenLines (listField fs "clobTokenIds") with
    | Except.error e => Except.error e
    | Except.ok tok =>
      Except.ok ([toString idx ++ ". " ++ pyStr (mget fs "groupItemTitle" (Json.str "Unknown Candidate")),
        "   ├─ Market ID: " ++ pyStr (mget fs "id" (Json.str "N/A")),
        "   ├─ Market Slug: " ++ pyStr (mget fs "slug" (Json.str "N/A")),
        "   ├─ Question: " ++ pyStr (mget fs "question" (Json.str "N/A")),
        "   ├─ Condition ID: " ++ pyStr (mget fs "conditionId" (Json.str "N/A")),
        "   ├─ Question ID: " ++ pyStr (mget fs "questionID" (Json.str "N/A"))]
        ++ tok ++ [""])
  | _ => Except.error (PyErr.attributeError "object has no attribute get")

/-- The `for idx, market in enumerate(active_markets, 1)` loop. -/
def marketBlocks : Nat → List Json → Except PyErr (List String)
  | _, [] => Except.ok []
  | i, m :: ms =>
    match marketBlock i m with
    | Except.error e => Except.error e
    | Except.ok b =>
      match marketBlocks (i + 1) ms with
      | Except.error e => Except.error e
      | Except.ok rest => Except.ok (b ++ rest)

/-- `display_event_info` (`polymarket_lookup.py` 265-328) as the list of
echoed strings, or the first uncaught Python exception. -/
def display_event_info : Json → Except PyErr (List String)
  | Json.obj fs =>
    match pyIter (mget fs "markets" (Json.arr [])) with
    | Except.error e => Except.error e
    | Except.ok ms =>
      match filterActive ms with
      | Except.error e => Except.error e
      | Except.ok act =>
        match marketBlocks 1 act with
        | Except.error e => Except.error e
        | Except.ok bls =>
          Except.ok (evHeaderLines fs ++ evMarketsHeader act.length ms.length ++ bls)
  | _ => Except.error (PyErr.attributeError "object has no attribute get")

/-- An HTTP response as returned by `lambda_handler`. -/
structure LambdaResponse where
  statusCode : Nat
  headers : List (String × String)
  body : String
deriving DecidableEq

/-- The request event as delivered by API Gateway, restricted to the two
pieces `lambda_handler` reads: the HTTP method (when the
`requestContext.http.method` chain is present) and `queryStringParameters`
(`none` models both an absent key and an explicit `null`, which Python's
`event.get('queryStringParameters', {})` followed by the `not query_params`
truthiness test treats alike). -/
structure LambdaEvent where
  method : Option String
  queryStringParameters : Option (List (String × String))

/-- Outcome of the single upstream `urllib.request.urlopen` call: a decoded
2xx body, an `HTTPError` with status code and reason, a `URLError` with
reason, or any other exception caught by the final `except Exception`. -/
inductive UpstreamOutcome where
  | ok : String → UpstreamOutcome
  | httpError : Nat → String → UpstreamOutcome
  | urlError : String → UpstreamOutcome
  | exn : String → UpstreamOutcome

/-- One character of `json.dumps` output with its default `ensure_ascii=True`
escaping. -/
def jsonEscapeChar (c : Char) : List Char :=
  if c = '"' then ['\\', '"']
  else if c = '\\' then ['\\', '\\']
  else if c = '\n' then ['\\', 'n']
  else if c = '\r' then ['\\', 'r']
  else if c = '\t' then ['\\', 't']
  else if c.toNat = 8 then ['\\', 'b']
  else if c.toNat = 12 then ['\\', 'f']
  else if c.toNat < 32 then
    '\\' :: 'u' :: '0' :: '0' :: hex2 c.toNat
  else if c.toNat ≤ 126 then [c]
  else if c.toNat ≤ 0xFFFF then
    ['\\', 'u', hexDigit (c.toNat / 4096 % 16), hexDigit (c.toNat / 256 % 16),
     hexDigit (c.toNat / 16 % 16), hexDigit (c.toNat % 16)]
  else
    let v := c.toNat - 0x10000
    let hi := 0xD800 + v / 0x400
    let lo := 0xDC00 + v % 0x400
    ['\\', 'u', hexDigit (hi / 4096 % 16), hexDigit (hi / 256 % 16),
     hexDigit (hi / 16 % 16), hexDigit (hi % 16),
     '\\', 'u', hexDigit (lo / 4096 % 16), hexDigit (lo / 256 % 16),
     hexDigit (lo / 16 % 16), hexDigit (lo % 16)]

/-- Fixed opening of `json.dumps({'error': ...})` output. -/
def errBodyPrefix : List Char := (String.mk [lbraceChar]).data ++ "\"error\": \"".data

/-- Fixed closing of `json.dumps({'error': ...})` output. -/
def errBodySuffix : List Char := '"' :: (String.mk [rbraceChar]).data

/-- `json.dumps({'error': msg})` with the default separators. -/
def jsonDumpsError (msg : String) : String :=
  String.mk (errBodyPrefix ++ msg.data.flatMap jsonEscapeChar ++ errBodySuffix)

/-- The CORS header every branch of `lambda_handler` attaches. -/
def acaoHeader : String × String := ("Access-Control-Allow-Origin", "*")

/-- The fixed 400 response for a missing `path` parameter. -/
def missingPathResponse : LambdaResponse :=
  { statusCode := 400
    headers := [acaoHeader, ("Content-Type", "application/json")]
    body := jsonDumpsError "Missing required parameter: path" }

/-- The fixed response to a CORS preflight `OPTIONS` request. -/
def optionsResponse : LambdaResponse :=
  { statusCode := 200
    headers := [acaoHeader,
      ("Access-Control-Allow-Methods", "GET, OPTIONS"),
      ("Access-Control-Allow-Headers",
        "Content-Type,X-Amz-Date,Authorization,X-Api-Key,X-Amz-Security-Token")]
    body := "" }

/-- `lambda_handler` (`lambda_function.py` 11-108).  The upstream world is a
parameter: `up` is what the single `urlopen` call for the built URL would
yield, consulted only on the branch that actually performs the call. -/
def lambda_handler (event : LambdaEvent) (up : UpstreamOutcome) : LambdaResponse :=
  if event.method = some "OPTIONS" then optionsResponse
  else
    match event.queryStringParameters with
    | none => missingPathResponse
    | some qp =>
      if qp.isEmpty || !(qp.any (fun kv => kv.1 == "path")) then missingPathResponse
      else
        match up with
        | UpstreamOutcome.ok body =>
            { statusCode := 200
              headers := [acaoHeader, ("Content-Type", "application/json"),
                ("Cache-Control", "public, max-age=300")]
              body := body }
        | UpstreamOutcome.httpError code reason =>
            { statusCode := code
              headers := [acaoHeader, ("Content-Type", "application/json")]
              body := jsonDumpsError ("API request failed: " ++ reason) }
        | UpstreamOutcome.urlError reason =>
            { statusCode := 500
              headers := [acaoHeader, ("Content-Type", "application/json")]
              body := jsonDumpsError ("Network error: " ++ reason) }
        | UpstreamOutcome.exn msg =>
            { statusCode := 500
              headers := [acaoHeader, ("Content-Type", "application/json")]
              body := jsonDumpsError ("Internal server error: " ++ msg) }

/-- Outcome of one `httpx.get` call in `polymarket_lookup.py`: either a 2xx
response whose body parsed to the given JSON value, or any `httpx.HTTPError`
(transport failure, timeout, or the `raise_for_status` of a non-2xx) with
its message. -/
inductive FetchOutcome where
  | ok : Json → FetchOutcome
  | httpError : String → FetchOutcome

/-- What the operator sees from one CLI command: echoed stdout lines and
echoed stderr lines (`click.echo(..., err=True)`). -/
structure CliOutput where
  out : List String
  err : List String
deriving DecidableEq

/-- `fetch_event_by_slug` (`polymarket_lookup.py` 18-51): first element of a
non-empty array, absence otherwise; `httpx.HTTPError` is echoed to stderr and
converted to absence.  Returns the result together with the stderr lines. -/
def fetch_event_by_slug : FetchOutcome → Option Json × List String
  | FetchOutcome.ok (Json.arr (x :: _)) => (some x, [])
  | FetchOutcome.ok _ => (none, [])
  | FetchOutcome.httpError m => (none, ["Error fetching data: " ++ m])

/-- `fetch_event_by_id` (`polymarket_lookup.py` 54-84): the parsed body is
returned unchanged; a JSON `null` body is Python `None` and therefore
indistinguishable from absence. -/
def fetch_event_by_id : FetchOutcome → Option Json × List String
  | FetchOutcome.ok Json.null => (none, [])
  | FetchOutcome.ok d => (some d, [])
  | FetchOutcome.httpError m => (none, ["Error fetching data: " ++ m])

/-- `fetch_market_by_slug` (`polymarket_lookup.py` 87-120). -/
def fetch_market_by_slug : FetchOutcome → Option Json × List String
  | FetchOutcome.ok (Json.arr (x :: _)) => (some x, [])
  | FetchOutcome.ok _ => (none, [])
  | FetchOutcome.httpError m => (none, ["Error fetching data: " ++ m])

/-- `fetch_market_by_id` (`polymarket_lookup.py` 123-153). -/
def fetch_market_by_id : FetchOutcome → Option Json × List String
  | FetchOutcome.ok Json.null => (none, [])
  | FetchOutcome.ok d => (some d, [])
  | FetchOutcome.httpError m => (none, ["Error fetching data: " ++ m])

/-- `fetch_market_by_token_id` (`polymarket_lookup.py` 156-190). -/
def fetch_market_by_token_id : FetchOutcome → Option Json × List String
  | FetchOutcome.ok (Json.arr (x :: _)) => (some x, [])
  | FetchOutcome.ok _ => (none, [])
  | FetchOutcome.httpError m => (none, ["Error fetching data: " ++ m])

/-- `fetch_market_by_question_id` (`polymarket_lookup.py` 193-226). -/
def fetch_market_by_question_id : FetchOutcome → Option Json × List String
  | FetchOutcome.ok (Json.arr (x :: _)) => (some x, [])
  | FetchOutcome.ok _ => (none, [])
  | FetchOutcome.httpError m => (none, ["Error fetching data: " ++ m])

/-- `fetch_market_by_condition_id` (`polymarket_lookup.py` 229-262). -/
def fetch_market_by_condition_id : FetchOutcome → Option Json × List String
  | FetchOutcome.ok (Json.arr (x :: _)) => (some x, [])
  | FetchOutcome.ok _ => (none, [])
  | FetchOutcome.httpError m => (none, ["Error fetching data: " ++ m])

/-- The `Lookup complete!` banner every command prints on success. -/
def banner3 : List String := ["\n" ++ sep70, "Lookup complete!", sep70]

/-- CLI command `event-slug` (`polymarket_lookup.py` 434-461). -/
def event_slug (slug : String) (up : FetchOutcome) : Except PyErr CliOutput :=
  let look := "Looking up event: " ++ slug ++ "..."
  match fetch_event_by_slug up with
  | (none, errs) => Except.ok ⟨[look], errs ++ ["Event not found with slug: " ++ slug]⟩
  | (some ev, errs) =>
    match display_event_info ev with
    | Except.error e => Except.error e
    | Except.ok ls => Except.ok ⟨[look] ++ ls ++ banner3, errs⟩

/-- CLI command `event-id` (`polymarket_lookup.py` 472-499). -/
def event_id (idv : String) (up : FetchOutcome) : Except PyErr CliOutput :=
  let look := "Looking up event ID: " ++ idv ++ "..."
  match fetch_event_by_id up with
  | (none, errs) => Except.ok ⟨[look], errs ++ ["Event not found with ID: " ++ idv]⟩
  | (some ev, errs) =>
    match display_event_info ev with
    | Except.error e => Except.error e
    | Except.ok ls => Except.ok ⟨[look] ++ ls ++ banner3, errs⟩

/-- CLI command `market-slug` (`polymarket_lookup.py` 510-537). -/
def market_slug (slug : String) (up : FetchOutcome) : Except PyErr CliOutput :=
  let look := "Looking up market: " ++ slug ++ "..."
  match fetch_market_by_slug up with
  | (none, errs) => Except.ok ⟨[look], errs ++ ["Market not found with slug: " ++ slug]⟩
  | (some mk, errs) =>
    match display_market_info mk with
    | Except.error e => Except.error e
    | Except.ok ls => Except.ok ⟨[look] ++ ls ++ banner3, errs⟩

/-- CLI command `market-id` (`polymarket_lookup.py` 548-575). -/
def market_id (idv : String) (up : FetchOutcome) : Except PyErr CliOutput :=
  let look := "Looking up market ID: " ++ idv ++ "..."
  match fetch_market_by_id up with
  | (none, errs) => Except.ok ⟨[look], errs ++ ["Market not found with ID: " ++ idv]⟩
  | (some mk, errs) =>
    match display_market_info mk with
    | Except.error e => Except.error e
    | Except.ok ls => Except.ok ⟨[look] ++ ls ++ banner3, errs⟩

/-- TOKEN ID MATCH section of the `token-id` command (`polymarket_lookup.py`
617-631): positional comparison of the queried identifier against the
decoded token-identifier list, `elif`-ordered Yes before No. -/
def tokenMatchLines (idv : String) (m : Json) : Except PyErr (List String) :=
  match dictGet m "clobTokenIds" (Json.str "[]") with
  | Except.error e => Except.error e
  | Except.ok v =>
    match json_loads v with
    | Except.error (PyErr.jsonDecodeError _) => Except.ok ["└─ Token ID matched this market"]
    | Except.error e => Except.error e
    | Except.ok tids =>
      match pyLen tids with
      | Except.error e => Except.error e
      | Except.ok n =>
        if 2 ≤ n then
          match pyIndex tids 0 with
          | Except.error e => Except.error e
          | Except.ok t0 =>
            match pyIndex tids 1 with
            | Except.error e => Except.error e
            | Except.ok t1 =>
              if pyEqStr idv t0 then
                Except.ok ["└─ This token represents the " ++ squote ++ "Yes" ++ squote ++ " outcome"]
              else if pyEqStr idv t1 then
                Except.ok ["└─ This token represents the " ++ squote ++ "No" ++ squote ++ " outcome"]
              else Except.ok ["└─ Token ID matched this market"]
        else Except.ok ["└─ Token ID matched this market"]

/-- CLI command `token-id` (`polymarket_lookup.py` 586-636). -/
def token_id (idv : String) (up : FetchOutcome) : Except PyErr CliOutput :=
  let look := "Looking up token ID: " ++ idv ++ "..."
  match fetch_market_by_token_id up with
  | (none, errs) => Except.ok ⟨[look], errs ++ ["Market not found with token ID: " ++ idv]⟩
  | (some mk, errs) =>
    match display_market_info mk with
    | Except.error e => Except.error e
    | Except.ok ls =>
      match tokenMatchLines idv mk with
      | Except.error e => Except.error e
      | Except.ok tls =>
        Except.ok ⟨[look] ++ ls ++ ["\n" ++ sep70, "TOKEN ID MATCH", sep70]
          ++ tls ++ banner3, errs⟩

/-- CLI command `question-id` (`polymarket_lookup.py` 647-674). -/
def question_id (idv : String) (up : FetchOutcome) : Except PyErr CliOutput :=
  let look := "Looking up question ID: " ++ idv ++ "..."
  match fetch_market_by_question_id up with
  | (none, errs) => Except.ok ⟨[look], errs ++ ["Market not found with question ID: " ++ idv]⟩
  | (some mk, errs) =>
    match display_market_info mk with
    | Except.error e => Except.error e
    | Except.ok ls => Except.ok ⟨[look] ++ ls ++ banner3, errs⟩

/-- CLI command `condition-id` (`polymarket_lookup.py` 685-714). -/
def condition_id (idv : String) (up : FetchOutcome) : Except PyErr CliOutput :=
  let look := "Looking up condition ID: " ++ idv ++ "..."
  match fetch_market_by_condition_id up with
  | (none, errs) => Except.ok ⟨[look], errs ++ ["Market not found with condition ID: " ++ idv]⟩
  | (some mk, errs) =>
    match display_market_info mk with
    | Except.error e => Except.error e
    | Except.ok ls => Except.ok ⟨[look] ++ ls ++ banner3, errs⟩

/-- Lines of a formatter run that completed without an exception (empty on
an exception); used to state concrete facts about displayed output. -/
def okLines : Except PyErr (List String) → List String
  | Except.ok ls => ls
  | Except.error _ => []

/-- Output of a CLI command run that completed without an exception. -/
def okOut : Except PyErr CliOutput → CliOutput
  | Except.ok o => o
  | Except.error _ => ⟨[], []⟩

/-- The condition under which `lambda_handler` reports a missing `path`
parameter, phrased as the claim does: the query-parameter map is absent,
empty, or lacks the key `path`. -/
def qpMissingPath (q : Option (List (String × String))) : Bool :=
  match q with
  | none => true
  | some qp => qp.isEmpty || !(qp.any (fun kv => kv.1 == "path"))

/-- The upstream-HTTP-error body can never coincide with the missing-path
body: their messages differ at the first character and `json.dumps` escaping
keeps plain ASCII characters. -/
theorem api_body_ne_missing (r : String) :
    jsonDumpsError ("API request failed: " ++ r)
      ≠ jsonDumpsError "Missing required parameter: path" := by
  intro h
  have h2 := congrArg String.data h
  simp only [jsonDumpsError, String.data_append, List.flatMap_append] at h2
  have hA : ("API request failed: ".data).flatMap jsonEscapeChar
      = "API request failed: ".data := by decide
  have hM : ("Missing required parameter: path".data).flatMap jsonEscapeChar
      = "Missing required parameter: path".data := by decide
  rw [hA, hM] at h2
  simp at h2

/-- C8: an `OPTIONS` request yields the fixed 200 response with empty body
and the three CORS headers, independently of the query parameters and of
whatever the upstream would answer — so no upstream call and no inspection
of the path parameter can influence the result. -/
theorem c8_options_preflight (q : Option (List (String × String))) (up : UpstreamOutcome) :
    lambda_handler ⟨some "OPTIONS", q⟩ up =
      { statusCode := 200
        headers := [("Access-Control-Allow-Origin", "*"),
          ("Access-Control-Allow-Methods", "GET, OPTIONS"),
          ("Access-Control-Allow-Headers",
            "Content-Type,X-Amz-Date,Authorization,X-Api-Key,X-Amz-Security-Token")]
        body := "" } := rfl

/-- C3: every response of `lambda_handler` carries
`Access-Control-Allow-Origin: *`, and every response other than a 200 one
(i.e. every failure response) carries `Content-Type: application/json` and
no `Cache-Control` header. -/
theorem c3_cors_headers_invariant (e : LambdaEvent) (up : UpstreamOutcome) :
    (lambda_handler e up).headers.lookup "Access-Control-Allow-Origin" = some "*" ∧
    ((lambda_handler e up).statusCode ≠ 200 →
      (lambda_handler e up).headers.lookup "Content-Type" = some "application/json" ∧
      (lambda_handler e up).headers.lookup "Cache-Control" = none) := by
  rcases e with ⟨m, q⟩
  by_cases hm : m = some "OPTIONS"
  · subst hm
    simp [lambda_handler, optionsResponse, acaoHeader, List.lookup]
  · cases q with
    | none =>
        simp [lambda_handler, hm, missingPathResponse, acaoHeader, List.lookup]
    | some qp =>
        by_cases hc : qp.isEmpty || !(qp.any (fun kv => kv.1 == "path"))
        · simp [lambda_handler, hm, hc, missingPathResponse, acaoHeader, List.lookup]
        · cases up <;> simp [lambda_handler, hm, hc, acaoHeader, List.lookup]

/-- C3 witness: at a concrete event with no query parameters and an
unexpected exception upstream, the 500 response satisfies all three header
facts. -/
theorem c3_cors_headers_invariant_witness :
    (lambda_handler ⟨none, none⟩ (UpstreamOutcome.exn "boom")).headers.lookup
        "Access-Control-Allow-Origin" = some "*" ∧
    (lambda_handler ⟨none, none⟩ (UpstreamOutcome.exn "boom")).headers.lookup
        "Content-Type" = some "application/json" ∧
    (lambda_handler ⟨none, none⟩ (UpstreamOutcome.exn "boom")).headers.lookup
        "Cache-Control" = none := by
  have h := c3_cors_headers_invariant ⟨none, none⟩ (UpstreamOutcome.exn "boom")
  exact ⟨h.1, (h.2 (by decide)).1, (h.2 (by decide)).2⟩

/-- C4: when the request is not a preflight, the `path` parameter is present
and the upstream GET raises `HTTPError` with a status code, the handler
answers with that same status code and the exact `json.dumps` body
`\x7b"error": "API request failed: <reason>"\x7d`. -/
theorem c4_http_error_passthrough (e : LambdaEvent) (qp : List (String × String))
    (code : Nat) (reason : String)
    (hm : e.method ≠ some "OPTIONS")
    (hq : e.queryStringParameters = some qp)
    (hp : qp.any (fun kv => kv.1 == "path") = true) :
    lambda_handler e (UpstreamOutcome.httpError code reason) =
      { statusCode := code
        headers := [("Access-Control-Allow-Origin", "*"), ("Content-Type", "application/json")]
        body := jsonDumpsError ("API request failed: " ++ reason) } := by
  rcases e with ⟨m, q⟩
  simp only at hm hq
  subst hq
  have hne : qp.isEmpty = false := by
    cases qp
    · simp at hp
    · rfl
  simp [lambda_handler, hm, hne, hp, acaoHeader]

/-- C4 witness: a concrete GET whose upstream answers 404 Not Found. -/
theorem c4_http_error_passthrough_witness :
    lambda_handler ⟨some "GET", some [("path", "/events/1")]⟩
        (UpstreamOutcome.httpError 404 "Not Found") =
      { statusCode := 404
        headers := [("Access-Control-Allow-Origin", "*"), ("Content-Type", "application/json")]
        body := jsonDumpsError ("API request failed: " ++ "Not Found") } :=
  c4_http_error_passthrough ⟨some "GET", some [("path", "/events/1")]⟩
    [("path", "/events/1")] 404 "Not Found" (by decide) rfl (by decide)

/-- C5: a non-OPTIONS request gets the 400 missing-parameter response (status
400 with exactly that body) precisely when the query-parameter map is
absent, empty or lacks the key `path`; and a present `path` key whose value
is the empty string instead reaches the upstream call, whose successful body
is passed through. -/
theorem c5_missing_path_iff (e : LambdaEvent) (up : UpstreamOutcome)
    (hm : e.method ≠ some "OPTIONS") :
    ((lambda_handler e up).statusCode = 400 ∧
      (lambda_handler e up).body = jsonDumpsError "Missing required parameter: path"
      ↔ qpMissingPath e.queryStringParameters = true) ∧
    (∀ qp, e.queryStringParameters = some qp → ("path", "") ∈ qp →
      ∀ b, lambda_handler e (UpstreamOutcome.ok b) =
        { statusCode := 200
          headers := [("Access-Control-Allow-Origin", "*"), ("Content-Type", "application/json"),
            ("Cache-Control", "public, max-age=300")]
          body := b }) := by
  rcases e with ⟨m, q⟩
  simp only at hm
  constructor
  · cases q with
    | none =>
        simp [lambda_handler, hm, qpMissingPath, missingPathResponse]
    | some qp =>
        by_cases hc : qp.isEmpty || !(qp.any (fun kv => kv.1 == "path"))
        · simp [lambda_handler, hm, hc, qpMissingPath, missingPathResponse]
        · simp only [lambda_handler, hm, if_neg hm, hc, qpMissingPath]
          simp only [Bool.false_eq_true, if_false]
          constructor
          · intro hh
            cases up with
            | ok body => simp at hh
            | httpError code reason =>
                exfalso
                exact api_body_ne_missing reason hh.2
            | urlError reason => simp at hh
            | exn msg => simp at hh
          · intro hh
            cases hh
  · intro qp hq hmem b
    have hany : qp.any (fun kv => kv.1 == "path") = true := by
      apply List.any_eq_true.mpr
      exact ⟨("path", ""), hmem, by simp⟩
    have hne : qp.isEmpty = false := by
      cases qp
      · cases hmem
      · rfl
    subst hq
    simp [lambda_handler, hm, hne, hany, acaoHeader]

/-- C5 witness: a concrete GET with no query-parameter map receives the 400
missing-parameter response, and a concrete GET with `path=` (empty value)
passes the upstream body through. -/
theorem c5_missing_path_iff_witness :
    ((lambda_handler ⟨some "GET", none⟩ (UpstreamOutcome.ok "x")).statusCode = 400 ∧
      (lambda_handler ⟨some "GET", none⟩ (UpstreamOutcome.ok "x")).body
        = jsonDumpsError "Missing required parameter: path") ∧
    lambda_handler ⟨some "GET", some [("path", "")]⟩ (UpstreamOutcome.ok "hello") =
      { statusCode := 200
        headers := [("Access-Control-Allow-Origin", "*"), ("Content-Type", "application/json"),
          ("Cache-Control", "public, max-age=300")]
        body := "hello" } :=
  ⟨(c5_missing_path_iff ⟨some "GET", none⟩ (UpstreamOutcome.ok "x") (by decide)).1.mpr (by decide),
   (c5_missing_path_iff ⟨some "GET", some [("path", "")]⟩ (UpstreamOutcome.ok "x")
      (by decide)).2 [("path", "")] rfl (by decide) "hello"⟩

/-- A lookup line printed by any CLI command never coincides with the
`Lookup complete!` banner line: the fifth characters already differ. -/
theorem lookLine_ne_banner (pre v suf : String) (t : List Char)
    (hp : pre.data = 'L' :: 'o' :: 'o' :: 'k' :: 'i' :: t) :
    pre ++ v ++ suf ≠ "Lookup complete!" := by
  intro h
  have h2 := congrArg String.data h
  rw [String.data_append, String.data_append, hp] at h2
  simp only [List.cons_append, List.append_assoc] at h2
  simp at h2

/-- C6: for each of the five array-shaped lookups (event slug, market slug,
token ID, question ID, condition ID), a successful upstream reply with an
empty array yields absence without an exception, and the command prints a
not-found message containing the supplied identifier on stderr while the
success banner is absent from stdout. -/
theorem c6_empty_array_not_found (v : String) :
    fetch_event_by_slug (FetchOutcome.ok (Json.arr [])) = (none, []) ∧
    fetch_market_by_slug (FetchOutcome.ok (Json.arr [])) = (none, []) ∧
    fetch_market_by_token_id (FetchOutcome.ok (Json.arr [])) = (none, []) ∧
    fetch_market_by_question_id (FetchOutcome.ok (Json.arr [])) = (none, []) ∧
    fetch_market_by_condition_id (FetchOutcome.ok (Json.arr [])) = (none, []) ∧
    event_slug v (FetchOutcome.ok (Json.arr [])) =
      Except.ok ⟨["Looking up event: " ++ v ++ "..."], ["Event not found with slug: " ++ v]⟩ ∧
    market_slug v (FetchOutcome.ok (Json.arr [])) =
      Except.ok ⟨["Looking up market: " ++ v ++ "..."], ["Market not found with slug: " ++ v]⟩ ∧
    token_id v (FetchOutcome.ok (Json.arr [])) =
      Except.ok ⟨["Looking up token ID: " ++ v ++ "..."], ["Market not found with token ID: " ++ v]⟩ ∧
    question_id v (FetchOutcome.ok (Json.arr [])) =
      Except.ok ⟨["Looking up question ID: " ++ v ++ "..."], ["Market not found with question ID: " ++ v]⟩ ∧
    condition_id v (FetchOutcome.ok (Json.arr [])) =
      Except.ok ⟨["Looking up condition ID: " ++ v ++ "..."], ["Market not found with condition ID: " ++ v]⟩ ∧
    "Lookup complete!" ∉ (okOut (event_slug v (FetchOutcome.ok (Json.arr [])))).out ∧
    "Lookup complete!" ∉ (okOut (market_slug v (FetchOutcome.ok (Json.arr [])))).out ∧
    "Lookup complete!" ∉ (okOut (token_id v (FetchOutcome.ok (Json.arr [])))).out ∧
    "Lookup complete!" ∉ (okOut (question_id v (FetchOutcome.ok (Json.arr [])))).out ∧
    "Lookup complete!" ∉ (okOut (condition_id v (FetchOutcome.ok (Json.arr [])))).out := by
  refine ⟨rfl, rfl, rfl, rfl, rfl, rfl, rfl, rfl, rfl, rfl, ?_, ?_, ?_, ?_, ?_⟩ <;>
    simp only [event_slug, market_slug, token_id, question_id, condition_id,
      fetch_event_by_slug, fetch_market_by_slug, fetch_market_by_token_id,
      fetch_market_by_question_id, fetch_market_by_condition_id, okOut,
      List.mem_singleton]
  · exact (lookLine_ne_banner "Looking up event: " v "..." ("ng up event: ".data) (by decide)).symm
  · exact (lookLine_ne_banner "Looking up market: " v "..." ("ng up market: ".data) (by decide)).symm
  · exact (lookLine_ne_banner "Looking up token ID: " v "..." ("ng up token ID: ".data) (by decide)).symm
  · exact (lookLine_ne_banner "Looking up question ID: " v "..." ("ng up question ID: ".data) (by decide)).symm
  · exact (lookLine_ne_banner "Looking up condition ID: " v "..." ("ng up condition ID: ".data) (by decide)).symm

/-- C10: `fetch_event_by_id` and `fetch_market_by_id` pass any non-null
parsed 2xx body through unchanged with no shape validation; a 2xx body which
is the JSON literal `null` is Python `None` and yields absence, so the
`event-id` command prints exactly the same not-found message it prints on a
genuine upstream failure. -/
theorem c10_id_fetch_passthrough_null :
    (∀ d : Json, d ≠ Json.null →
      fetch_event_by_id (FetchOutcome.ok d) = (some d, []) ∧
      fetch_market_by_id (FetchOutcome.ok d) = (some d, [])) ∧
    fetch_event_by_id (FetchOutcome.ok Json.null) = (none, []) ∧
    fetch_market_by_id (FetchOutcome.ok Json.null) = (none, []) ∧
    (∀ v, event_id v (FetchOutcome.ok Json.null) =
        Except.ok ⟨["Looking up event ID: " ++ v ++ "..."], ["Event not found with ID: " ++ v]⟩ ∧
      ∀ m, event_id v (FetchOutcome.httpError m) =
        Except.ok ⟨["Looking up event ID: " ++ v ++ "..."],
          ["Error fetching data: " ++ m, "Event not found with ID: " ++ v]⟩) := by
  refine ⟨?_, rfl, rfl, fun v => ⟨rfl, fun m => rfl⟩⟩
  intro d hd
  cases d with
  | null => exact absurd rfl hd
  | bool b => exact ⟨rfl, rfl⟩
  | num s => exact ⟨rfl, rfl⟩
  | str s => exact ⟨rfl, rfl⟩
  | arr xs => exact ⟨rfl, rfl⟩
  | obj fs => exact ⟨rfl, rfl⟩

/-- C6 witness: the five fetchers and the `event-slug` command at the
concrete identifier `abc`. -/
theorem c6_empty_array_not_found_witness :
    fetch_event_by_slug (FetchOutcome.ok (Json.arr [])) = (none, []) ∧
    event_slug "abc" (FetchOutcome.ok (Json.arr [])) =
      Except.ok ⟨["Looking up event: abc..."], ["Event not found with slug: abc"]⟩ ∧
    "Lookup complete!" ∉ (okOut (event_slug "abc" (FetchOutcome.ok (Json.arr [])))).out := by
  have h := c6_empty_array_not_found "abc"
  exact ⟨h.1, h.2.2.2.2.2.1, h.2.2.2.2.2.2.2.2.2.2.1⟩

/-- C10 witness: a non-null string body passes through; the `event-id`
command at identifier `9` reports not-found on a JSON `null` body. -/
theorem c10_id_fetch_passthrough_null_witness :
    fetch_event_by_id (FetchOutcome.ok (Json.str "x")) = (some (Json.str "x"), []) ∧
    event_id "9" (FetchOutcome.ok Json.null) =
      Except.ok ⟨["Looking up event ID: 9..."], ["Event not found with ID: 9"]⟩ := by
  have h := c10_id_fetch_passthrough_null
  exact ⟨(h.1 (Json.str "x") (fun hx => Json.noConfusion hx)).1, (h.2.2.2 "9").1⟩

/-- A string-encoded list field value in the shape the formatters survive:
a string that either fails to JSON-parse or parses to a list. -/
def decodesToListOrFails (v : Json) : Prop :=
  ∃ s, v = Json.str s ∧ (jsonParse s = none ∨ ∃ xs, jsonParse s = some (Json.arr xs))

/-- A well-formed `events` back-reference: an empty list, a list headed by a
dictionary, or any falsy value (which the `if events:` test skips). -/
def goodEventsField (fs : List (String × Json)) : Prop :=
  mget fs "events" (Json.arr []) = Json.arr []
  ∨ (∃ efs rest, mget fs "events" (Json.arr []) = Json.arr (Json.obj efs :: rest))
  ∨ pyTruthy (mget fs "events" (Json.arr [])) = false

/-- On a failed parse the market token section shows the raw string. -/
theorem miTokenLines_of_parse_fail (s : String) (h : jsonParse s = none) :
    miTokenLines (Json.str s) = Except.ok ["└─ Token IDs: " ++ s] := by
  simp [miTokenLines, json_loads, h, pyStr]

/-- On a parse to a list the market token section labels positions 0/1 as
Yes/No when there are at least two elements and otherwise shows the decoded
list. -/
theorem miTokenLines_of_parse_list (s : String) (xs : List Json)
    (h : jsonParse s = some (Json.arr xs)) :
    miTokenLines (Json.str s) = Except.ok (
      match xs with
      | t0 :: t1 :: _ => ["├─ Token ID (Yes): " ++ pyStr t0, "└─ Token ID (No): " ++ pyStr t1]
      | _ => ["└─ Token IDs: " ++ pyStr (Json.arr xs)]) := by
  rcases xs with _ | ⟨a, _ | ⟨b, l⟩⟩ <;>
    simp [miTokenLines, json_loads, h, pyLen, pyIndex]

/-- Event-side analogue of `miTokenLines_of_parse_fail`. -/
theorem evTokenLines_of_parse_fail (s : String) (h : jsonParse s = none) :
    evTokenLines (Json.str s) = Except.ok ["   └─ Token IDs: " ++ s] := by
  simp [evTokenLines, json_loads, h, pyStr]

/-- Event-side analogue of `miTokenLines_of_parse_list`. -/
theorem evTokenLines_of_parse_list (s : String) (xs : List Json)
    (h : jsonParse s = some (Json.arr xs)) :
    evTokenLines (Json.str s) = Except.ok (
      match xs with
      | t0 :: t1 :: _ => ["   ├─ Token ID (Yes): " ++ pyStr t0, "   └─ Token ID (No): " ++ pyStr t1]
      | _ => ["   └─ Token IDs: " ++ pyStr (Json.arr xs)]) := by
  rcases xs with _ | ⟨a, _ | ⟨b, l⟩⟩ <;>
    simp [evTokenLines, json_loads, h, pyLen, pyIndex]

/-- When the outcomes field fails to parse, both raw values are shown. -/
theorem outcomesLines_of_fail_left (so : String) (pv : Json) (h : jsonParse so = none) :
    outcomesLines (Json.str so) pv =
      Except.ok ["├─ Outcomes: " ++ so, "└─ Prices: " ++ pyStr pv] := by
  simp [outcomesLines, json_loads, h, pyStr]

/-- When the prices field fails to parse, both raw values are shown. -/
theorem outcomesLines_of_fail_right (so : String) (os : Json) (sp : String)
    (ho : jsonParse so = some os) (h : jsonParse sp = none) :
    outcomesLines (Json.str so) (Json.str sp) =
      Except.ok ["├─ Outcomes: " ++ so, "└─ Prices: " ++ sp] := by
  simp [outcomesLines, json_loads, ho, h, pyStr]

/-- When both fields parse to lists, pairs are shown when both have at least
two elements and the decoded lists otherwise. -/
theorem outcomesLines_of_lists (so sp : String) (os ps : List Json)
    (ho : jsonParse so = some (Json.arr os)) (hp : jsonParse sp = some (Json.arr ps)) :
    outcomesLines (Json.str so) (Json.str sp) =
      Except.ok (
        match os, ps with
        | o0 :: o1 :: _, p0 :: p1 :: _ =>
            ["├─ " ++ pyStr o0 ++ " Price: " ++ pyStr p0,
             "└─ " ++ pyStr o1 ++ " Price: " ++ pyStr p1]
        | _, _ =>
            ["├─ Outcomes: " ++ pyStr (Json.arr os), "└─ Prices: " ++ pyStr (Json.arr ps)]) := by
  rcases os with _ | ⟨a, _ | ⟨b, l⟩⟩ <;> rcases ps with _ | ⟨c, _ | ⟨d, r⟩⟩ <;>
    simp [outcomesLines, json_loads, ho, hp, pyLen, pyIndex]

/-- The outcomes section never raises on good field values. -/
theorem outcomesLines_ok_of_good (ov pv : Json)
    (ho : decodesToListOrFails ov) (hp : decodesToListOrFails pv) :
    ∃ ls, outcomesLines ov pv = Except.ok ls := by
  obtain ⟨so, rfl, hco⟩ := ho
  obtain ⟨sp, rfl, hcp⟩ := hp
  rcases hco with hfo | ⟨os, hos⟩
  · exact ⟨_, outcomesLines_of_fail_left so (Json.str sp) hfo⟩
  · rcases hcp with hfp | ⟨ps, hps⟩
    · exact ⟨_, outcomesLines_of_fail_right so (Json.arr os) sp hos hfp⟩
    · exact ⟨_, outcomesLines_of_lists so sp os ps hos hps⟩

/-- The associated-event section never raises on a good `events` field. -/
theorem assocEventLines_ok_of_good (fs : List (String × Json)) (h : goodEventsField fs) :
    ∃ ls, assocEventLines (mget fs "events" (Json.arr [])) = Except.ok ls := by
  rcases h with h | ⟨efs, rest, h⟩ | h
  · rw [h]
    exact ⟨[], rfl⟩
  · rw [h]
    simp [assocEventLines, pyTruthy, pyIndex]
  · simp [assocEventLines, h]

/-- Assembly of `display_market_info` from its three fallible sections. -/
theorem display_market_info_eq (fs : List (String × Json))
    (tok outs evl : List String)
    (h1 : miTokenLines (listField fs "clobTokenIds") = Except.ok tok)
    (h2 : outcomesLines (listField fs "outcomes") (listField fs "outcomePrices") = Except.ok outs)
    (h3 : assocEventLines (mget fs "events" (Json.arr [])) = Except.ok evl) :
    display_market_info (Json.obj fs) =
      Except.ok (miHeaderLines fs ++ tok ++ miStatusLines fs
        ++ miMetricsLines fs ++ outs ++ evl) := by
  simp [display_market_info, h1, h2, h3]

/-- The market token section never raises on a good field value. -/
theorem miTokenLines_ok_of_good (v : Json) (h : decodesToListOrFails v) :
    ∃ ls, miTokenLines v = Except.ok ls := by
  obtain ⟨s, rfl, hc⟩ := h
  rcases hc with hf | ⟨xs, hxs⟩
  · exact ⟨_, miTokenLines_of_parse_fail s hf⟩
  · exact ⟨_, miTokenLines_of_parse_list s xs hxs⟩

/-- The event token section never raises on a good field value. -/
theorem evTokenLines_ok_of_good (v : Json) (h : decodesToListOrFails v) :
    ∃ ls, evTokenLines v = Except.ok ls := by
  obtain ⟨s, rfl, hc⟩ := h
  rcases hc with hf | ⟨xs, hxs⟩
  · exact ⟨_, evTokenLines_of_parse_fail s hf⟩
  · exact ⟨_, evTokenLines_of_parse_list s xs hxs⟩

/-- Membership in the displayed subset as the code computes it: the market is
a dictionary whose `active` value is Python-truthy (absent defaults to
`False`). -/
def claimActive : Json → Bool
  | Json.obj gs => pyTruthy (mget gs "active" (Json.bool false))
  | _ => false

/-- The effectful comprehension equals the pure truthiness filter when all
markets are dictionaries. -/
theorem filterActive_eq_filter (ms : List Json)
    (h : ∀ m ∈ ms, ∃ gs, m = Json.obj gs) :
    filterActive ms = Except.ok (ms.filter claimActive) := by
  induction ms with
  | nil => rfl
  | cons m ms ih =>
      obtain ⟨gs, rfl⟩ := h m (List.mem_cons_self m ms)
      have ih2 := ih (fun m hm => h m (List.mem_cons_of_mem _ hm))
      simp [filterActive, dictGet, ih2, List.filter_cons, claimActive]

/-- A market block never raises on a good token field, and its first line is
the 1-based ordinal followed by the grouping title with its
`Unknown Candidate` default. -/
theorem marketBlock_ok (i : Nat) (gs : List (String × Json))
    (h : decodesToListOrFails (listField gs "clobTokenIds")) :
    ∃ bl, marketBlock i (Json.obj gs) = Except.ok bl ∧
      bl.head? = some (toString i ++ ". "
        ++ pyStr (mget gs "groupItemTitle" (Json.str "Unknown Candidate"))) := by
  obtain ⟨tok, htok⟩ := evTokenLines_ok_of_good _ h
  have hb : marketBlock i (Json.obj gs) = Except.ok
      ([toString i ++ ". " ++ pyStr (mget gs "groupItemTitle" (Json.str "Unknown Candidate")),
        "   ├─ Market ID: " ++ pyStr (mget gs "id" (Json.str "N/A")),
        "   ├─ Market Slug: " ++ pyStr (mget gs "slug" (Json.str "N/A")),
        "   ├─ Question: " ++ pyStr (mget gs "question" (Json.str "N/A")),
        "   ├─ Condition ID: " ++ pyStr (mget gs "conditionId" (Json.str "N/A")),
        "   ├─ Question ID: " ++ pyStr (mget gs "questionID" (Json.str "N/A"))]
        ++ tok ++ [""]) := by
    simp [marketBlock, htok]
  exact ⟨_, hb, by simp⟩

/-- The enumeration loop never raises when every market block is good. -/
theorem marketBlocks_ok (ms : List Json)
    (h : ∀ m ∈ ms, ∃ gs, m = Json.obj gs ∧ decodesToListOrFails (listField gs "clobTokenIds")) :
    ∀ i, ∃ bls, marketBlocks i ms = Except.ok bls := by
  induction ms with
  | nil => exact fun i => ⟨[], rfl⟩
  | cons m ms ih =>
      intro i
      obtain ⟨gs, rfl, hg⟩ := h _ (List.mem_cons_self m ms)
      obtain ⟨bl, hbl, _⟩ := marketBlock_ok i gs hg
      obtain ⟨bls, hbls⟩ := ih (fun m hm => h m (List.mem_cons_of_mem _ hm)) (i + 1)
      exact ⟨bl ++ bls, by simp [marketBlocks, hbl, hbls]⟩

/-- Assembly of `display_event_info` from its markets pipeline. -/
theorem display_event_info_eq (fs : List (String × Json)) (ms act : List Json)
    (bls : List String)
    (hms : mget fs "markets" (Json.arr []) = Json.arr ms)
    (hact : filterActive ms = Except.ok act)
    (hbls : marketBlocks 1 act = Except.ok bls) :
    display_event_info (Json.obj fs) =
      Except.ok (evHeaderLines fs ++ evMarketsHeader act.length ms.length ++ bls) := by
  simp [display_event_info, hms, pyIter, hact, hbls]

/-- A market block whose token field fails to parse contains the raw
token-IDs line; the block always exists on a good token field. -/
theorem marketBlock_raw_mem (i : Nat) (gs : List (String × Json))
    (h : decodesToListOrFails (listField gs "clobTokenIds")) :
    ∃ bl, marketBlock i (Json.obj gs) = Except.ok bl ∧
      (∀ s, listField gs "clobTokenIds" = Json.str s → jsonParse s = none →
        ("   └─ Token IDs: " ++ s) ∈ bl) := by
  obtain ⟨s0, hs0, hc⟩ := h
  obtain ⟨tok, htokeq, htokraw⟩ : ∃ tok,
      evTokenLines (listField gs "clobTokenIds") = Except.ok tok ∧
      (jsonParse s0 = none → tok = ["   └─ Token IDs: " ++ s0]) := by
    rcases hc with hf | ⟨xs, hxs⟩
    · exact ⟨_, by rw [hs0]; exact evTokenLines_of_parse_fail s0 hf, fun _ => rfl⟩
    · refine ⟨_, by rw [hs0]; exact evTokenLines_of_parse_list s0 xs hxs, ?_⟩
      intro hpn
      rw [hxs] at hpn
      cases hpn
  have hb : marketBlock i (Json.obj gs) = Except.ok
      ([toString i ++ ". " ++ pyStr (mget gs "groupItemTitle" (Json.str "Unknown Candidate")),
        "   ├─ Market ID: " ++ pyStr (mget gs "id" (Json.str "N/A")),
        "   ├─ Market Slug: " ++ pyStr (mget gs "slug" (Json.str "N/A")),
        "   ├─ Question: " ++ pyStr (mget gs "question" (Json.str "N/A")),
        "   ├─ Condition ID: " ++ pyStr (mget gs "conditionId" (Json.str "N/A")),
        "   ├─ Question ID: " ++ pyStr (mget gs "questionID" (Json.str "N/A"))]
        ++ tok ++ [""]) := by
    simp [marketBlock, htokeq]
  refine ⟨_, hb, ?_⟩
  intro s hs hpn
  have hss : s = s0 := by
    have h2 := hs0.symm.trans hs
    exact ((Json.str.injEq s0 s).mp h2).symm
  subst hss
  rw [htokraw hpn]
  exact List.mem_append_left _ (List.mem_append_right _ (List.mem_singleton.mpr rfl))

/-- The enumeration loop over good markets never raises, and each displayed
market whose token field fails to parse contributes its raw token-IDs line. -/
theorem marketBlocks_raw_mem (ms : List Json)
    (h : ∀ m ∈ ms, ∃ gs, m = Json.obj gs ∧ decodesToListOrFails (listField gs "clobTokenIds")) :
    ∀ i, ∃ bls, marketBlocks i ms = Except.ok bls ∧
      (∀ gs, Json.obj gs ∈ ms → ∀ s, listField gs "clobTokenIds" = Json.str s →
        jsonParse s = none → ("   └─ Token IDs: " ++ s) ∈ bls) := by
  induction ms with
  | nil =>
      intro i
      exact ⟨[], rfl, fun gs hmem => absurd hmem (List.not_mem_nil _)⟩
  | cons m ms ih =>
      intro i
      obtain ⟨gs0, rfl, hg⟩ := h _ (List.mem_cons_self m ms)
      obtain ⟨bl, hbl, hblraw⟩ := marketBlock_raw_mem i gs0 hg
      obtain ⟨bls, hbls, hblsraw⟩ := ih (fun m hm => h m (List.mem_cons_of_mem _ hm)) (i + 1)
      refine ⟨bl ++ bls, by simp [marketBlocks, hbl, hbls], ?_⟩
      intro gs hmem s hs hpn
      rcases List.mem_cons.mp hmem with he | hm
      · have hgs : gs = gs0 := (Json.obj.injEq gs gs0).mp he
        subst hgs
        exact List.mem_append_left _ (hblraw s hs hpn)
      · exact List.mem_append_right _ (hblsraw gs hm s hs hpn)

/-- C1 (amended): on any market dictionary whose three string-encoded list
fields hold strings that parse to lists or fail to parse (and a well-formed
`events` field), and any event dictionary whose markets are such
dictionaries, the formatters complete without an exception, and every
displayed field whose parse failed is shown as the raw string: the market
token-IDs line, the outcomes and prices lines (both raw as soon as either
parse fails), and the token-IDs line of every displayed active market of
the event. -/
theorem c1_display_total_on_list_decodes (fs : List (String × Json))
    (htok : decodesToListOrFails (listField fs "clobTokenIds"))
    (hout : decodesToListOrFails (listField fs "outcomes"))
    (hpr : decodesToListOrFails (listField fs "outcomePrices"))
    (hev : goodEventsField fs)
    (efs : List (String × Json)) (ms : List Json)
    (hms : mget efs "markets" (Json.arr []) = Json.arr ms)
    (hmobj : ∀ m ∈ ms, ∃ gs, m = Json.obj gs ∧ decodesToListOrFails (listField gs "clobTokenIds")) :
    (∃ ls, display_market_info (Json.obj fs) = Except.ok ls ∧
      (∀ s, listField fs "clobTokenIds" = Json.str s → jsonParse s = none →
        ("└─ Token IDs: " ++ s) ∈ ls) ∧
      (∀ so sp, listField fs "outcomes" = Json.str so →
        listField fs "outcomePrices" = Json.str sp →
        (jsonParse so = none ∨ jsonParse sp = none) →
        ("├─ Outcomes: " ++ so) ∈ ls ∧ ("└─ Prices: " ++ sp) ∈ ls)) ∧
    (∃ ls, display_event_info (Json.obj efs) = Except.ok ls ∧
      (∀ gs, Json.obj gs ∈ ms.filter claimActive →
        ∀ s, listField gs "clobTokenIds" = Json.str s → jsonParse s = none →
          ("   └─ Token IDs: " ++ s) ∈ ls)) := by
  constructor
  · obtain ⟨evl, hevl⟩ := assocEventLines_ok_of_good fs hev
    obtain ⟨s0, hs0, hc0⟩ := htok
    obtain ⟨so0, hso0, hco⟩ := hout
    obtain ⟨sp0, hsp0, hcp⟩ := hpr
    obtain ⟨tok, htokeq, htokraw⟩ : ∃ tok,
        miTokenLines (listField fs "clobTokenIds") = Except.ok tok ∧
        (jsonParse s0 = none → tok = ["└─ Token IDs: " ++ s0]) := by
      rcases hc0 with hf | ⟨xs, hxs⟩
      · exact ⟨_, by rw [hs0]; exact miTokenLines_of_parse_fail s0 hf, fun _ => rfl⟩
      · refine ⟨_, by rw [hs0]; exact miTokenLines_of_parse_list s0 xs hxs, ?_⟩
        intro hpn
        rw [hxs] at hpn
        cases hpn
    obtain ⟨outs, houtseq, houtsraw⟩ : ∃ outs,
        outcomesLines (listField fs "outcomes") (listField fs "outcomePrices")
          = Except.ok outs ∧
        (jsonParse so0 = none ∨ jsonParse sp0 = none →
          outs = ["├─ Outcomes: " ++ so0, "└─ Prices: " ++ sp0]) := by
      rcases hco with hfo | ⟨os, hos⟩
      · refine ⟨["├─ Outcomes: " ++ so0, "└─ Prices: " ++ sp0], ?_, fun _ => rfl⟩
        rw [hso0, hsp0]
        exact outcomesLines_of_fail_left so0 (Json.str sp0) hfo
      · rcases hcp with hfp | ⟨ps, hps⟩
        · refine ⟨["├─ Outcomes: " ++ so0, "└─ Prices: " ++ sp0], ?_, fun _ => rfl⟩
          rw [hso0, hsp0]
          exact outcomesLines_of_fail_right so0 (Json.arr os) sp0 hos hfp
        · refine ⟨_, by rw [hso0, hsp0]; exact outcomesLines_of_lists so0 sp0 os ps hos hps, ?_⟩
          intro hor
          rcases hor with hpn | hpn
          · rw [hos] at hpn
            cases hpn
          · rw [hps] at hpn
            cases hpn
    refine ⟨_, display_market_info_eq fs _ _ _ htokeq houtseq hevl, ?_, ?_⟩
    · intro s hs hpn
      have hss : s = s0 := by
        have h2 := hs0.symm.trans hs
        exact ((Json.str.injEq s0 s).mp h2).symm
      subst hss
      rw [htokraw hpn]
      simp only [List.mem_append]
      exact Or.inl (Or.inl (Or.inl (Or.inl (Or.inr (List.mem_singleton.mpr rfl)))))
    · intro so sp hso hsp hor
      have hsso : so = so0 := by
        have h2 := hso0.symm.trans hso
        exact ((Json.str.injEq so0 so).mp h2).symm
      have hssp : sp = sp0 := by
        have h2 := hsp0.symm.trans hsp
        exact ((Json.str.injEq sp0 sp).mp h2).symm
      subst hsso
      subst hssp
      rw [houtsraw hor]
      constructor
      · simp only [List.mem_append]
        exact Or.inl (Or.inr (by simp))
      · simp only [List.mem_append]
        exact Or.inl (Or.inr (by simp))
  · have hobj : ∀ m ∈ ms, ∃ gs, m = Json.obj gs :=
      fun m hm => ((hmobj m hm).imp (fun gs h => h.1))
    have hact := filterActive_eq_filter ms hobj
    have hgood : ∀ m ∈ ms.filter claimActive,
        ∃ gs, m = Json.obj gs ∧ decodesToListOrFails (listField gs "clobTokenIds") :=
      fun m hm => hmobj m (List.mem_of_mem_filter hm)
    obtain ⟨bls, hbls, hblsraw⟩ := marketBlocks_raw_mem _ hgood 1
    refine ⟨_, display_event_info_eq efs ms _ bls hms hact hbls, ?_⟩
    intro gs hmem s hs hpn
    simp only [List.mem_append]
    exact Or.inr (hblsraw gs hmem s hs hpn)

/-- C1 counterexample: the token field value `"5"` parses successfully to a
Python `int`, so `len(token_ids)` raises an uncaught `TypeError` and
`display_market_info` does not complete — the claim that the formatters
never raise for every field value is false. -/
theorem c1_scalar_decode_raises :
    display_market_info (Json.obj [("clobTokenIds", Json.str "5")])
      = Except.error (PyErr.typeError "object has no len") := rfl

/-- C1 witness: a market whose token, outcomes and prices fields are all
unparseable strings has each displayed raw without an exception, and an
event whose one active market has an unparseable token field displays it
raw without an exception. -/
theorem c1_display_total_on_list_decodes_witness :
    ("└─ Token IDs: not json") ∈ okLines (display_market_info
      (Json.obj [("clobTokenIds", Json.str "not json"),
        ("outcomes", Json.str "oops"), ("outcomePrices", Json.str "bad")])) ∧
    ("├─ Outcomes: oops") ∈ okLines (display_market_info
      (Json.obj [("clobTokenIds", Json.str "not json"),
        ("outcomes", Json.str "oops"), ("outcomePrices", Json.str "bad")])) ∧
    ("└─ Prices: bad") ∈ okLines (display_market_info
      (Json.obj [("clobTokenIds", Json.str "not json"),
        ("outcomes", Json.str "oops"), ("outcomePrices", Json.str "bad")])) ∧
    ("   └─ Token IDs: not json") ∈ okLines (display_event_info
      (Json.obj [("markets", Json.arr [Json.obj
        [("active", Json.bool true), ("clobTokenIds", Json.str "not json")]])])) := by
  have h := c1_display_total_on_list_decodes
    [("clobTokenIds", Json.str "not json"),
      ("outcomes", Json.str "oops"), ("outcomePrices", Json.str "bad")]
    ⟨"not json", rfl, Or.inl rfl⟩
    ⟨"oops", rfl, Or.inl rfl⟩
    ⟨"bad", rfl, Or.inl rfl⟩
    (Or.inl rfl)
    [("markets", Json.arr [Json.obj
      [("active", Json.bool true), ("clobTokenIds", Json.str "not json")]])]
    [Json.obj [("active", Json.bool true), ("clobTokenIds", Json.str "not json")]]
    rfl
    (fun m hm => by
      rw [List.mem_singleton] at hm
      subst hm
      exact ⟨_, rfl, ⟨"not json", rfl, Or.inl rfl⟩⟩)
  obtain ⟨⟨ls, hls, htokraw, houtraw⟩, ⟨els, hels, hevraw⟩⟩ := h
  have ho := houtraw "oops" "bad" rfl rfl (Or.inl rfl)
  refine ⟨?_, ?_, ?_, ?_⟩
  · rw [hls]
    exact htokraw "not json" rfl rfl
  · rw [hls]
    exact ho.1
  · rw [hls]
    exact ho.2
  · rw [hels]
    exact hevraw [("active", Json.bool true), ("clobTokenIds", Json.str "not json")]
      (List.mem_singleton.mpr rfl) "not json" rfl rfl

/-- C2 (amended): when the token-identifier field decodes to a list of fewer
than two elements, both formatters display the `str()` of the decoded
Python list (not the raw undecoded string); likewise market rendering shows
the two decoded lists when either outcomes or prices has fewer than two
elements. -/
theorem c2_short_list_decoded_display (fs : List (String × Json)) (s : String) (xs : List Json)
    (hf : listField fs "clobTokenIds" = Json.str s)
    (hxs : jsonParse s = some (Json.arr xs))
    (hshort : xs.length < 2)
    (hout : decodesToListOrFails (listField fs "outcomes"))
    (hpr : decodesToListOrFails (listField fs "outcomePrices"))
    (hev : goodEventsField fs) :
    (∃ ls, display_market_info (Json.obj fs) = Except.ok ls ∧
      ("└─ Token IDs: " ++ pyStr (Json.arr xs)) ∈ ls) ∧
    (∃ ls, display_event_info (Json.obj [("markets",
        Json.arr [Json.obj (("active", Json.bool true) :: fs)])]) = Except.ok ls ∧
      ("   └─ Token IDs: " ++ pyStr (Json.arr xs)) ∈ ls) ∧
    (∀ so os sp ps, listField fs "outcomes" = Json.str so →
      jsonParse so = some (Json.arr os) →
      listField fs "outcomePrices" = Json.str sp →
      jsonParse sp = some (Json.arr ps) →
      os.length < 2 ∨ ps.length < 2 →
      ∃ ls, display_market_info (Json.obj fs) = Except.ok ls ∧
        ("├─ Outcomes: " ++ pyStr (Json.arr os)) ∈ ls ∧
        ("└─ Prices: " ++ pyStr (Json.arr ps)) ∈ ls) := by
  obtain ⟨outs, houts⟩ := outcomesLines_ok_of_good _ _ hout hpr
  obtain ⟨evl, hevl⟩ := assocEventLines_ok_of_good fs hev
  have htl : miTokenLines (listField fs "clobTokenIds")
      = Except.ok ["└─ Token IDs: " ++ pyStr (Json.arr xs)] := by
    rw [hf]
    have := miTokenLines_of_parse_list s xs hxs
    rcases xs with _ | ⟨a, _ | ⟨b, l⟩⟩
    · exact this
    · exact this
    · simp only [List.length_cons] at hshort
      omega
  have hetl : evTokenLines (listField fs "clobTokenIds")
      = Except.ok ["   └─ Token IDs: " ++ pyStr (Json.arr xs)] := by
    rw [hf]
    have := evTokenLines_of_parse_list s xs hxs
    rcases xs with _ | ⟨a, _ | ⟨b, l⟩⟩
    · exact this
    · exact this
    · simp only [List.length_cons] at hshort
      omega
  refine ⟨?_, ?_, ?_⟩
  · refine ⟨_, display_market_info_eq fs _ _ _ htl houts hevl, ?_⟩
    simp
  · have hf2 : listField (("active", Json.bool true) :: fs) "clobTokenIds"
        = listField fs "clobTokenIds" := by
      simp [listField, mget, List.lookup]
    have hblk : marketBlock 1 (Json.obj (("active", Json.bool true) :: fs))
        = Except.ok
          ([toString 1 ++ ". " ++ pyStr (mget (("active", Json.bool true) :: fs) "groupItemTitle" (Json.str "Unknown Candidate")),
            "   ├─ Market ID: " ++ pyStr (mget (("active", Json.bool true) :: fs) "id" (Json.str "N/A")),
            "   ├─ Market Slug: " ++ pyStr (mget (("active", Json.bool true) :: fs) "slug" (Json.str "N/A")),
            "   ├─ Question: " ++ pyStr (mget (("active", Json.bool true) :: fs) "question" (Json.str "N/A")),
            "   ├─ Condition ID: " ++ pyStr (mget (("active", Json.bool true) :: fs) "conditionId" (Json.str "N/A")),
            "   ├─ Question ID: " ++ pyStr (mget (("active", Json.bool true) :: fs) "questionID" (Json.str "N/A"))]
            ++ ["   └─ Token IDs: " ++ pyStr (Json.arr xs)] ++ [""]) := by
      simp [marketBlock, hf2, hetl]
    have hact : filterActive [Json.obj (("active", Json.bool true) :: fs)]
        = Except.ok [Json.obj (("active", Json.bool true) :: fs)] := by
      simp [filterActive, dictGet, mget, List.lookup, pyTruthy]
    have hbls : marketBlocks 1 [Json.obj (("active", Json.bool true) :: fs)]
        = Except.ok (([toString 1 ++ ". " ++ pyStr (mget (("active", Json.bool true) :: fs) "groupItemTitle" (Json.str "Unknown Candidate")),
            "   ├─ Market ID: " ++ pyStr (mget (("active", Json.bool true) :: fs) "id" (Json.str "N/A")),
            "   ├─ Market Slug: " ++ pyStr (mget (("active", Json.bool true) :: fs) "slug" (Json.str "N/A")),
            "   ├─ Question: " ++ pyStr (mget (("active", Json.bool true) :: fs) "question" (Json.str "N/A")),
            "   ├─ Condition ID: " ++ pyStr (mget (("active", Json.bool true) :: fs) "conditionId" (Json.str "N/A")),
            "   ├─ Question ID: " ++ pyStr (mget (("active", Json.bool true) :: fs) "questionID" (Json.str "N/A"))]
            ++ ["   └─ Token IDs: " ++ pyStr (Json.arr xs)] ++ [""]) ++ []) := by
      simp only [marketBlocks, hblk]
    refine ⟨_, display_event_info_eq [("markets",
        Json.arr [Json.obj (("active", Json.bool true) :: fs)])]
        [Json.obj (("active", Json.bool true) :: fs)]
        [Json.obj (("active", Json.bool true) :: fs)] _ rfl hact hbls, ?_⟩
    simp
  · intro so os sp ps hso hos hsp hps hshort2
    have houts2 : outcomesLines (listField fs "outcomes") (listField fs "outcomePrices")
        = Except.ok ["├─ Outcomes: " ++ pyStr (Json.arr os), "└─ Prices: " ++ pyStr (Json.arr ps)] := by
      rw [hso, hsp]
      have := outcomesLines_of_lists so sp os ps hos hps
      rcases os with _ | ⟨a, _ | ⟨b, l⟩⟩ <;> rcases ps with _ | ⟨c, _ | ⟨d, r⟩⟩ <;>
        first
          | exact this
          | (exfalso; rcases hshort2 with hx | hx <;>
              (simp only [List.length_cons] at hx; omega))
    refine ⟨_, display_market_info_eq fs _ _ _ htl houts2 hevl, ?_⟩
    constructor <;> simp

/-- C2 counterexample: for the raw field value `["111"]` (which decodes to a
one-element list) the formatter prints the Python repr of the decoded list,
whose strings are single-quoted, and the raw undecoded string (with double
quotes) appears nowhere — the claim that the raw value is displayed is
false. -/
theorem c2_short_list_shows_decoded_repr :
    jsonParse "[\"111\"]" = some (Json.arr [Json.str "111"]) ∧
    ("└─ Token IDs: [" ++ squote ++ "111" ++ squote ++ "]")
      ∈ okLines (display_market_info (Json.obj [("clobTokenIds", Json.str "[\"111\"]")])) ∧
    ("└─ Token IDs: [\"111\"]")
      ∉ okLines (display_market_info (Json.obj [("clobTokenIds", Json.str "[\"111\"]")])) :=
  ⟨rfl, by decide, by decide⟩

/-- C2 witness: the event-side formatter at a concrete one-token market. -/
theorem c2_short_list_decoded_display_witness :
    ("   └─ Token IDs: [" ++ squote ++ "111" ++ squote ++ "]")
      ∈ okLines (display_event_info (Json.obj [("markets",
        Json.arr [Json.obj [("active", Json.bool true), ("clobTokenIds", Json.str "[\"111\"]")]])])) := by
  have h := c2_short_list_decoded_display [("clobTokenIds", Json.str "[\"111\"]")] "[\"111\"]" [Json.str "111"]
    rfl rfl (by decide)
    ⟨"[]", rfl, Or.inr ⟨[], rfl⟩⟩
    ⟨"[]", rfl, Or.inr ⟨[], rfl⟩⟩
    (Or.inl rfl)
  obtain ⟨ls, hls, hm⟩ := h.2.1
  have : pyStr (Json.arr [Json.str "111"]) = "[" ++ squote ++ "111" ++ squote ++ "]" := by decide
  rw [this] at hm
  rw [hls]
  exact hm

/-- The TOKEN ID MATCH section on a two-plus-element decode is the
`elif`-ordered positional comparison. -/
theorem tokenMatchLines_eq (idv : String) (fs : List (String × Json))
    (s : String) (t0 t1 : Json) (rest : List Json)
    (hf : mget fs "clobTokenIds" (Json.str "[]") = Json.str s)
    (hp : jsonParse s = some (Json.arr (t0 :: t1 :: rest))) :
    tokenMatchLines idv (Json.obj fs) = Except.ok
      [if pyEqStr idv t0 then
        "└─ This token represents the " ++ squote ++ "Yes" ++ squote ++ " outcome"
       else if pyEqStr idv t1 then
        "└─ This token represents the " ++ squote ++ "No" ++ squote ++ " outcome"
       else "└─ Token ID matched this market"] := by
  by_cases h0 : pyEqStr idv t0 <;> by_cases h1 : pyEqStr idv t1 <;>
    simp [tokenMatchLines, dictGet, hf, json_loads, hp, pyLen, pyIndex, h0, h1]

/-- C7 (amended): on a resolved market whose token field decodes to at least
two elements, `token-id` prints the Yes line exactly when the queried
identifier equals position 0, the No line exactly when it equals position 1
and differs from position 0, and the generic line otherwise. -/
theorem c7_token_match_priority (idv : String) (fs : List (String × Json))
    (s : String) (t0 t1 : Json) (rest : List Json)
    (hf : listField fs "clobTokenIds" = Json.str s)
    (hp : jsonParse s = some (Json.arr (t0 :: t1 :: rest)))
    (hout : decodesToListOrFails (listField fs "outcomes"))
    (hpr : decodesToListOrFails (listField fs "outcomePrices"))
    (hev : goodEventsField fs) :
    ∃ dls, display_market_info (Json.obj fs) = Except.ok dls ∧
      token_id idv (FetchOutcome.ok (Json.arr [Json.obj fs])) = Except.ok
        ⟨["Looking up token ID: " ++ idv ++ "..."] ++ dls
          ++ ["\n" ++ sep70, "TOKEN ID MATCH", sep70]
          ++ [if pyEqStr idv t0 then
                "└─ This token represents the " ++ squote ++ "Yes" ++ squote ++ " outcome"
              else if pyEqStr idv t1 then
                "└─ This token represents the " ++ squote ++ "No" ++ squote ++ " outcome"
              else "└─ Token ID matched this market"]
          ++ banner3, []⟩ := by
  obtain ⟨outs, houts⟩ := outcomesLines_ok_of_good _ _ hout hpr
  obtain ⟨evl, hevl⟩ := assocEventLines_ok_of_good fs hev
  have htl : miTokenLines (listField fs "clobTokenIds") = Except.ok
      ["├─ Token ID (Yes): " ++ pyStr t0, "└─ Token ID (No): " ++ pyStr t1] := by
    rw [hf]
    exact miTokenLines_of_parse_list s (t0 :: t1 :: rest) hp
  have hd := display_market_info_eq fs _ _ _ htl houts hevl
  have hm := tokenMatchLines_eq idv fs s t0 t1 rest hf hp
  refine ⟨_, hd, ?_⟩
  simp [token_id, fetch_market_by_token_id, hd, hm]

/-- C7 counterexample: with the duplicate token list `["7", "7"]` and query
`7`, the identifier equals the element at position 1, yet the No line is
not printed (the Yes line wins by `elif` priority) — the claim that the No
outcome is printed exactly when the identifier equals position 1 is false. -/
theorem c7_duplicate_token_yes_priority :
    jsonParse "[\"7\", \"7\"]" = some (Json.arr [Json.str "7", Json.str "7"]) ∧
    pyEqStr "7" (Json.str "7") = true ∧
    ("└─ This token represents the " ++ squote ++ "No" ++ squote ++ " outcome")
      ∉ (okOut (token_id "7" (FetchOutcome.ok
          (Json.arr [Json.obj [("clobTokenIds", Json.str "[\"7\", \"7\"]")]])))).out ∧
    ("└─ This token represents the " ++ squote ++ "Yes" ++ squote ++ " outcome")
      ∈ (okOut (token_id "7" (FetchOutcome.ok
          (Json.arr [Json.obj [("clobTokenIds", Json.str "[\"7\", \"7\"]")]])))).out :=
  ⟨rfl, by decide, by decide, by decide⟩

/-- C7 witness: a concrete market with distinct tokens, queried by the
position-1 token, prints the No line. -/
theorem c7_token_match_priority_witness :
    ∃ dls, display_market_info (Json.obj [("clobTokenIds", Json.str "[\"8\", \"9\"]")])
        = Except.ok dls ∧
      token_id "9" (FetchOutcome.ok (Json.arr [Json.obj [("clobTokenIds", Json.str "[\"8\", \"9\"]")]]))
        = Except.ok
        ⟨["Looking up token ID: 9..."] ++ dls
          ++ ["\n" ++ sep70, "TOKEN ID MATCH", sep70]
          ++ ["└─ This token represents the " ++ squote ++ "No" ++ squote ++ " outcome"]
          ++ banner3, []⟩ := by
  have h := c7_token_match_priority "9" [("clobTokenIds", Json.str "[\"8\", \"9\"]")] "[\"8\", \"9\"]"
    (Json.str "8") (Json.str "9") [] rfl rfl
    ⟨"[]", rfl, Or.inr ⟨[], rfl⟩⟩
    ⟨"[]", rfl, Or.inr ⟨[], rfl⟩⟩
    (Or.inl rfl)
  obtain ⟨dls, hd, ht⟩ := h
  refine ⟨dls, hd, ?_⟩
  rw [ht]
  have h1 : pyEqStr "9" (Json.str "8") = false := by decide
  have h2 : pyEqStr "9" (Json.str "9") = true := by decide
  rw [h1, h2]
  simp

/-- C9 (amended): `display_event_info` prints exactly the markets whose
`active` value is Python-truthy (absent defaults to false), in original
order, with 1-based ordinals and the `Unknown Candidate` label default. -/
theorem c9_active_filter_truthy (efs : List (String × Json)) (ms : List Json)
    (hms : mget efs "markets" (Json.arr []) = Json.arr ms)
    (hmobj : ∀ m ∈ ms, ∃ gs, m = Json.obj gs ∧ decodesToListOrFails (listField gs "clobTokenIds")) :
    filterActive ms = Except.ok (ms.filter claimActive) ∧
    (∃ bls, marketBlocks 1 (ms.filter claimActive) = Except.ok bls ∧
      display_event_info (Json.obj efs) = Except.ok
        (evHeaderLines efs
          ++ evMarketsHeader (ms.filter claimActive).length ms.length ++ bls)) ∧
    (∀ i gs, Json.obj gs ∈ ms.filter claimActive →
      ∃ bl, marketBlock i (Json.obj gs) = Except.ok bl ∧
        bl.head? = some (toString i ++ ". "
          ++ pyStr (mget gs "groupItemTitle" (Json.str "Unknown Candidate")))) := by
  have hobj : ∀ m ∈ ms, ∃ gs, m = Json.obj gs :=
    fun m hm => ((hmobj m hm).imp (fun gs h => h.1))
  have hact := filterActive_eq_filter ms hobj
  have hgood : ∀ m ∈ ms.filter claimActive,
      ∃ gs, m = Json.obj gs ∧ decodesToListOrFails (listField gs "clobTokenIds") :=
    fun m hm => hmobj m (List.mem_of_mem_filter hm)
  obtain ⟨bls, hbls⟩ := marketBlocks_ok _ hgood 1
  refine ⟨hact, ⟨bls, hbls, display_event_info_eq efs ms _ bls hms hact hbls⟩, ?_⟩
  intro i gs hmem
  obtain ⟨gs', heq, hg⟩ := hgood _ hmem
  have hgs : gs = gs' := (Json.obj.injEq gs gs').mp heq
  subst hgs
  exact marketBlock_ok i gs hg

/-- C9 counterexample: a market whose `active` flag is the truthy string
`"false"` — not the boolean `true` — is nevertheless printed, so the claim
that exactly the flag-is-true markets are printed is false. -/
theorem c9_nonbool_active_included :
    ("1. Unknown Candidate") ∈ okLines (display_event_info
      (Json.obj [("markets", Json.arr [Json.obj [("active", Json.str "false")]])])) ∧
    Json.str "false" ≠ Json.bool true :=
  ⟨by decide, fun h => Json.noConfusion h⟩

/-- C9 witness: a concrete single-market event with boolean `active = true`
passes the filter and is formatted without an exception. -/
theorem c9_active_filter_truthy_witness :
    filterActive [Json.obj [("active", Json.bool true)]]
      = Except.ok ([Json.obj [("active", Json.bool true)]].filter claimActive) ∧
    (display_event_info (Json.obj
      [("markets", Json.arr [Json.obj [("active", Json.bool true)]])])).isOk = true := by
  have h := c9_active_filter_truthy [("markets", Json.arr [Json.obj [("active", Json.bool true)]])]
    [Json.obj [("active", Json.bool true)]] rfl
    (fun m hm => by
      rw [List.mem_singleton] at hm
      subst hm
      exact ⟨_, rfl, ⟨"[]", rfl, Or.inr ⟨[], rfl⟩⟩⟩)
  refine ⟨h.1, ?_⟩
  obtain ⟨bls, _, hd⟩ := h.2.1
  rw [hd]
  rfl
